import Mathlib

/-!
Verification of the view layer of the local-library catalog application
(src/locallibrary/catalog/views.py) against its natural-language
specification.  The data model (models.py) and the renewal form
(forms.py) are not part of the sources, so their shapes are modelled
from the specification; the view functions themselves are shallowly
embedded from views.py.  Dates are modelled as integers (day numbers),
record identifiers as naturals, and the persistent store as explicit
lists of records.
-/

namespace LocalLibrary

/-- Modelled from the spec: a Genre record has a name string (models.py
is not under src; spec section 3). -/
structure Genre where
  id : Nat
  name : String
deriving Repr, DecidableEq

/-- Modelled from the spec: an Author record has name fields, a date of
birth and an optional date of death (models.py is not under src). -/
structure Author where
  id : Nat
  first_name : String
  last_name : String
  date_of_birth : Int
  date_of_death : Option Int
deriving Repr, DecidableEq

/-- Modelled from the spec: a Book has a title, summary, language, a
many-to-many set of genres and a reference to an Author (models.py is
not under src).  The genre field holds the ids of the related genres. -/
structure Book where
  id : Nat
  title : String
  summary : String
  language : String
  author : Nat
  genre : List Nat
deriving Repr, DecidableEq

/-- Modelled from the spec: a BookInstance is a loanable copy of a Book
with a status (a one-letter code: 'a' = available, 'o' = on loan), a
due-back date and an optional borrower (models.py is not under src). -/
structure BookInstance where
  id : Nat
  book : Nat
  status : Char
  due_back : Int
  borrower : Option Nat
deriving Repr, DecidableEq

/-- The persistent store consumed by the view layer: lists of Book,
Author, Genre and BookInstance records. -/
structure Store where
  books : List Book
  authors : List Author
  genres : List Genre
  instances : List BookInstance
deriving Repr, DecidableEq

/-- A store is well formed when record identifiers are unique within
each table (the store's referential-integrity guarantee, spec section 3). -/
def Store.wellFormed (s : Store) : Prop :=
  (s.books.map Book.id).Nodup ∧ (s.authors.map Author.id).Nodup ∧
  (s.genres.map Genre.id).Nodup ∧ (s.instances.map BookInstance.id).Nodup

instance (s : Store) : Decidable s.wellFormed := by
  unfold Store.wellFormed
  infer_instance

/-- A requesting user: an identifier, whether the session is
authenticated, and the set of permission strings the user holds. -/
structure User where
  id : Nat
  authenticated : Bool
  perms : List String
deriving Repr, DecidableEq

/-- Django's User.has_perm: an anonymous (unauthenticated) user holds no
permissions; an authenticated user holds exactly the granted ones. -/
def User.has_perm (u : User) (p : String) : Bool :=
  u.authenticated && u.perms.contains p

/-- Case-insensitive substring test, embedding the ORM lookup
name__icontains used at views.py line 27. -/
def icontains (hay needle : String) : Bool :=
  let h := hay.data.map Char.toLower
  let n := needle.data.map Char.toLower
  (h.tails).any (fun t => n.isPrefixOf t)

/-- The genres related to a book through the many-to-many field, in
store order. -/
def genresOf (s : Store) (b : Book) : List Genre :=
  s.genres.filter (fun g => b.genre.contains g.id)

/-- Embeds Book.objects.filter(genre__name__icontains='poem').count()
(views.py line 27).  The ORM spans the many-to-many relation with a SQL
join and counts the join rows without applying distinct, so each
(book, matching genre) pair contributes one to the count. -/
def books_containing_genre_count (s : Store) : Nat :=
  ((s.books.flatMap (fun b => (genresOf s b).map (fun g => (b, g)))).filter
    (fun p => icontains p.2.name "poem")).length

/-- The session is a key-value mapping backing request.session; only
natural-valued keys are used by this module. -/
abbrev Session := List (String × Nat)

/-- Embeds request.session.get(key, default) (views.py line 30). -/
def sessionGet (s : Session) (k : String) (d : Nat) : Nat :=
  match s.lookup k with
  | some v => v
  | none => d

/-- Embeds the assignment request.session[key] = v (views.py line 31). -/
def sessionSet (s : Session) (k : String) (v : Nat) : Session :=
  (k, v) :: s.eraseP (fun p => p.1 == k)

/-- The template context rendered by the index view (views.py 37-43). -/
structure IndexContext where
  num_books : Nat
  num_instances : Nat
  num_instances_available : Nat
  num_authors : Nat
  num_genres : Nat
  books_containing_genre : Nat
  num_visits : Nat
deriving Repr, DecidableEq

/-- Embeds the index view (views.py 16-44): computes the six aggregate
counts, reads the session visit counter with default 0, stores the
incremented counter back, and renders the context. -/
def index (s : Store) (sess : Session) : IndexContext × Session :=
  let num_books := s.books.length
  let num_instances := s.instances.length
  let num_instances_available := (s.instances.filter (fun bi => bi.status == 'a')).length
  let num_authors := s.authors.length
  let num_genres := s.genres.length
  let poem := books_containing_genre_count s
  let num_visits := sessionGet sess "num_visits" 0
  let sess2 := sessionSet sess "num_visits" (num_visits + 1)
  (⟨num_books, num_instances, num_instances_available, num_authors, num_genres,
    poem, num_visits⟩, sess2)

/-- Number of distinct elements of a list: the cardinality of the set it
represents. -/
def distinctCount (l : List Nat) : Nat := l.dedup.length

/-- The claim's reading of the poem figure: the number of Books having
some genre whose name contains "poem" case-insensitively, each Book
counted at most once.  Stated from the spec's words for comparison with
the embedded count. -/
def spec_books_with_poem_genre (s : Store) : Nat :=
  (s.books.filter (fun b => (genresOf s b).any (fun g => icontains g.name "poem"))).length

/-- Per-book tally of matching genres: the amended reading of the poem
figure (one contribution per (book, matching genre) pair). -/
def poem_pair_count (s : Store) : Nat :=
  (s.books.map (fun b => ((genresOf s b).filter (fun g => icontains g.name "poem")).length)).sum

/-! ## List views and pagination -/

/-- Response of an access-guarded list view: either the rejection
produced by the guard, or the queryset handed to the template. -/
inductive GuardedResult (α : Type) where
  | redirectToLogin
  | forbidden
  | ok (records : α)
deriving Repr, DecidableEq

/-- The queryset of BookListView (views.py line 51): all books in the
store's default order. -/
def bookListQueryset (s : Store) : List Book := s.books

/-- The queryset of AuthorListView (views.py line 63): all authors in
the store's default order. -/
def authorListQueryset (s : Store) : List Author := s.authors

/-- BookInstance comparison by due-back date, the boolean order used by
order_by('due_back'). -/
def dueBackLE (a b : BookInstance) : Bool := a.due_back ≤ b.due_back

/-- Embeds LoanedBooksByUserListView.get_queryset (views.py 78-79):
instances borrowed by the requesting user with status 'o', ordered by
due-back date (a stable sort, as SQL ORDER BY on one key). -/
def loanedBooksQueryset (u : User) (s : Store) : List BookInstance :=
  (((s.instances.filter (fun bi => bi.borrower == some u.id)).filter
    (fun bi => bi.status == 'o')).mergeSort dueBackLE)

/-- Embeds AllBorrowedBooksByUserListView.get_queryset (views.py 88-89):
all instances with status 'o' ordered by due-back date. -/
def allBorrowedQueryset (s : Store) : List BookInstance :=
  ((s.instances.filter (fun bi => bi.status == 'o')).mergeSort dueBackLE)

/-- Embeds the LoginRequiredMixin dispatch of LoanedBooksByUserListView
(views.py line 70): an unauthenticated request is redirected to the
login page before the queryset is evaluated; otherwise the queryset is
returned. -/
def loanedBooksView (u : User) (s : Store) : GuardedResult (List BookInstance) :=
  if u.authenticated then .ok (loanedBooksQueryset u s) else .redirectToLogin

/-- Embeds the PermissionRequiredMixin dispatch of
AllBorrowedBooksByUserListView (views.py 82-84): a request lacking the
catalog.can_mark_returned permission is rejected before the queryset is
evaluated — with 403 when the user is authenticated, otherwise by a
redirect to the login page (the framework's documented
handle_no_permission behaviour with raise_exception unset). -/
def allBorrowedView (u : User) (s : Store) : GuardedResult (List BookInstance) :=
  if u.has_perm "catalog.can_mark_returned" then .ok (allBorrowedQueryset s)
  else if u.authenticated then .forbidden
  else .redirectToLogin

/-- Embeds the framework paginator used by every list view here with
paginate_by = 10: the number of pages is the ceiling of count / per,
with at least one (possibly empty) first page. -/
def numPages (count per : Nat) : Nat := max 1 ((count + per - 1) / per)

/-- Embeds requesting page n of an object list at 10 records per page:
an out-of-range page number yields none (the view answers 404);
otherwise the page is the slice object_list[bottom : bottom + 10] with
bottom = 10 * (n - 1). -/
def pageOf {α : Type} (l : List α) (n : Nat) : Option (List α) :=
  if 1 ≤ n ∧ n ≤ numPages l.length 10 then
    some ((l.take (10 * (n - 1) + 10)).drop (10 * (n - 1)))
  else none

/-- Page n of the Book list view. -/
def bookListPage (s : Store) (n : Nat) : Option (List Book) :=
  pageOf (bookListQueryset s) n

/-- Page n of the Author list view. -/
def authorListPage (s : Store) (n : Nat) : Option (List Author) :=
  pageOf (authorListQueryset s) n

/-- Page n of the my-loans list view's queryset. -/
def loanedBooksPage (u : User) (s : Store) (n : Nat) : Option (List BookInstance) :=
  pageOf (loanedBooksQueryset u s) n

/-- Page n of the all-loans list view's queryset. -/
def allBorrowedPage (s : Store) (n : Nat) : Option (List BookInstance) :=
  pageOf (allBorrowedQueryset s) n

/-! ## The renewal workflow -/

/-- The renewal form (forms.py is not under src).  Modelled from the
spec: it owns a single date field renewal_date; bound records whether it
was populated from submitted data (POST) or from an initial value (GET). -/
structure RenewForm where
  bound : Bool
  renewal_date : Int
deriving Repr, DecidableEq

/-- Response of the renewal view.  redirectToLogin is the rejection the
permission_required decorator produces; forbidden (HTTP 403) is a
possible HTTP outcome the decorator never produces with its default
configuration; renderForm carries the form, whether it is shown with
validation errors, and the target BookInstance passed to the template. -/
inductive RenewResult where
  | redirectToLogin
  | forbidden
  | notFound
  | redirect (urlName : String)
  | renderForm (form : RenewForm) (withErrors : Bool) (bookinst : BookInstance)
deriving Repr, DecidableEq

/-- Embeds BookInstance.save() (views.py line 109): the record replaces
the stored record carrying the same primary key. -/
def saveInstance (store : List BookInstance) (bi : BookInstance) : List BookInstance :=
  store.map (fun x => if x.id == bi.id then bi else x)

/-- Embeds renew_book_librarian (views.py 92-119).  The validation
predicate of RenewBookForm.is_valid is a parameter: forms.py is not
under src and the spec leaves the exact date bounds to that
collaborator.  The decorator permission_required (line 92) redirects to
the login page when the permission is missing; get_object_or_404 (line
97) resolves the target by primary key; a POST binds the form and on
success writes the date and redirects to the all-loans view, on failure
re-renders the bound form with errors; any other method renders the
default form with initial date today + 3 weeks. -/
def renew_book_librarian (valid : Int → Bool) (today : Int) (u : User)
    (method : String) (posted : Int) (pk : Nat)
    (store : List BookInstance) : RenewResult × List BookInstance :=
  if u.has_perm "catalog.can_mark_returned" then
    match store.find? (fun x => x.id == pk) with
    | none => (.notFound, store)
    | some book_inst =>
      if method == "POST" then
        let form : RenewForm := ⟨true, posted⟩
        if valid form.renewal_date then
          let updated := { book_inst with due_back := form.renewal_date }
          (.redirect "all-borrowed-books", saveInstance store updated)
        else
          (.renderForm form true book_inst, store)
      else
        let proposed_renewal_date := today + 21
        (.renderForm ⟨false, proposed_renewal_date⟩ false book_inst, store)
  else (.redirectToLogin, store)

/-! ## CRUD management views: accepted field sets -/

/-- Modelled from the spec: the full field list of the Book entity
(models.py is not under src; spec section 3 lists title, summary,
language, genre, author). -/
def bookAllFields : List String := ["title", "summary", "language", "genre", "author"]

/-- Embeds BookCreate (views.py 141-144): fields = '__all__', the full
Book field list. -/
def bookCreateFields : List String := bookAllFields

/-- Embeds BookUpdate (views.py 147-150): fields = summary, genre,
language. -/
def bookUpdateFields : List String := ["summary", "genre", "language"]

/-- Submitted data for a Book model form: a value per possibly-editable
field, none meaning the field keeps its current value. -/
structure BookFormData where
  title : Option String
  summary : Option String
  language : Option String
  author : Option Nat
  genre : Option (List Nat)
deriving Repr, DecidableEq

/-- Embeds the framework model form of the Book create and update views:
only the fields listed by the view are bound from the submitted data,
every other field keeps the instance's current value. -/
def applyBookForm (allowed : List String) (d : BookFormData) (b : Book) : Book :=
  { b with
    title := if allowed.contains "title" then d.title.getD b.title else b.title
    summary := if allowed.contains "summary" then d.summary.getD b.summary else b.summary
    language := if allowed.contains "language" then d.language.getD b.language else b.language
    author := if allowed.contains "author" then d.author.getD b.author else b.author
    genre := if allowed.contains "genre" then d.genre.getD b.genre else b.genre }

/-! ## Concrete data used by witnesses and counterexamples -/

/-- The session state reached after n requests to the index view,
starting from a fresh (empty) session; the store may differ per request. -/
def sessionAfter (stores : Nat → Store) : Nat → Session
  | 0 => []
  | n + 1 => (index (stores n) (sessionAfter stores n)).2

/-- A store with no records. -/
def emptyStore : Store := ⟨[], [], [], []⟩

/-- A well-formed store holding one book related to two genres whose
names both contain "poem" case-insensitively. -/
def poemStore : Store :=
  ⟨[⟨1, "Anthology", "s", "en", 1, [1, 2]⟩], [⟨1, "A", "B", 0, none⟩],
   [⟨1, "Poems"⟩, ⟨2, "Epic poem"⟩], []⟩

/-- An authenticated user holding the librarian permission. -/
def renewUser : User := ⟨7, true, ["catalog.can_mark_returned"]⟩

/-- A loaned copy due on day 100, borrowed by user 7. -/
def loanA : BookInstance := ⟨5, 1, 'o', 100, some 7⟩

/-- A loaned copy due on day 50, borrowed by user 7. -/
def loanB : BookInstance := ⟨6, 1, 'o', 50, some 7⟩

/-- A store holding the two loaned copies. -/
def loanStore : Store := ⟨[], [], [], [loanA, loanB]⟩

/-- A store holding two books, for pagination witnesses. -/
def pageStore : Store :=
  ⟨[⟨1, "a", "s", "en", 1, []⟩, ⟨2, "b", "s", "en", 1, []⟩], [], [], []⟩

/-! ## Helper lemmas -/

/-- Reading back a just-written session key yields the written value. -/
lemma sessionGet_sessionSet (s : Session) (k : String) (v d : Nat) :
    sessionGet (sessionSet s k v) k d = v := by
  simp [sessionGet, sessionSet, List.lookup]

/-- The length of the filtered join-row list over a book list equals the
sum over books of the number of their matching genres. -/
lemma count_pairs_aux (s : Store) (bs : List Book) :
    ((bs.flatMap (fun b => (genresOf s b).map (fun g => (b, g)))).filter
      (fun p => icontains p.2.name "poem")).length
    = (bs.map (fun b =>
        ((genresOf s b).filter (fun g => icontains g.name "poem")).length)).sum := by
  induction bs with
  | nil => simp
  | cons b bs ih =>
    simp only [List.flatMap_cons, List.filter_append, List.length_append, ih,
      List.map_cons, List.sum_cons, List.filter_map, Function.comp, List.length_map]
    rfl

/-- The embedded ORM join count is the per-book sum of matching genres. -/
lemma books_containing_genre_eq_pairs (s : Store) :
    books_containing_genre_count s = poem_pair_count s :=
  count_pairs_aux s s.books

/-- On a duplicate-free list the distinct count is the length. -/
lemma distinctCount_of_nodup {l : List Nat} (h : l.Nodup) : distinctCount l = l.length := by
  unfold distinctCount
  rw [List.dedup_eq_self.mpr h]

/-- A record found by primary key carries that key. -/
lemma find?_id_eq {store : List BookInstance} {pk : Nat} {tgt : BookInstance}
    (h : store.find? (fun x => x.id == pk) = some tgt) : tgt.id = pk := by
  have := List.find?_some h
  simpa using this

/-- After saving a record whose primary key is the one found, looking the
key up again finds exactly the saved record. -/
lemma saveInstance_find? {store : List BookInstance} {pk : Nat} {tgt : BookInstance}
    (h : store.find? (fun x => x.id == pk) = some tgt) (bi : BookInstance)
    (hid : bi.id = tgt.id) :
    (saveInstance store bi).find? (fun x => x.id == pk) = some bi := by
  have htgt : tgt.id = pk := find?_id_eq h
  have hbi : (bi.id == pk) = true := by simp [hid, htgt]
  induction store with
  | nil => simp at h
  | cons a l ih =>
    have hsave : saveInstance (a :: l) bi
        = (if a.id == bi.id then bi else a) :: saveInstance l bi := rfl
    rw [List.find?_cons] at h
    cases hpa : (a.id == pk) with
    | true =>
      have hap : a.id = pk := by simpa using hpa
      have hcond : (a.id == bi.id) = true := by simp [hap, hid, htgt]
      rw [hsave, if_pos hcond, List.find?_cons, hbi]
    | false =>
      rw [hpa] at h
      have h' : List.find? (fun x => x.id == pk) l = some tgt := h
      have hap : ¬ a.id = pk := by simpa using hpa
      have hane : ¬ (a.id == bi.id) = true := by
        simp only [hid, htgt, beq_iff_eq]
        exact hap
      rw [hsave, if_neg hane, List.find?_cons, hpa]
      exact ih h'

/-- Saving never changes the number of stored records. -/
lemma saveInstance_length (store : List BookInstance) (bi : BookInstance) :
    (saveInstance store bi).length = store.length := by
  simp [saveInstance]

/-- A record with a different primary key survives a save untouched. -/
lemma saveInstance_mem_of_ne {store : List BookInstance} {bi x : BookInstance}
    (hx : x ∈ store) (hne : x.id ≠ bi.id) : x ∈ saveInstance store bi := by
  refine List.mem_map.mpr ⟨x, hx, ?_⟩
  simp [hne]

/-- A post-save record with a different primary key was already stored. -/
lemma mem_of_saveInstance_ne {store : List BookInstance} {bi x : BookInstance}
    (hx : x ∈ saveInstance store bi) (hne : x.id ≠ bi.id) : x ∈ store := by
  obtain ⟨y, hy, hxy⟩ := List.mem_map.mp hx
  by_cases hc : (y.id == bi.id) = true
  · rw [if_pos hc] at hxy
    exact absurd (hxy ▸ rfl : x.id = bi.id) hne
  · rw [if_neg hc] at hxy
    exact hxy ▸ hy

/-- The saved record itself is present after the save. -/
lemma saveInstance_mem_self {store : List BookInstance} {tgt : BookInstance}
    (htgt : tgt ∈ store) (bi : BookInstance) (hid : bi.id = tgt.id) :
    bi ∈ saveInstance store bi := by
  refine List.mem_map.mpr ⟨tgt, htgt, ?_⟩
  rw [if_pos (by simp [hid])]

/-- Transitivity of the due-back comparison. -/
lemma dueBackLE_trans : ∀ a b c : BookInstance,
    dueBackLE a b = true → dueBackLE b c = true → dueBackLE a c = true := by
  intro a b c hab hbc
  simp only [dueBackLE, decide_eq_true_eq] at *
  omega

/-- Totality of the due-back comparison. -/
lemma dueBackLE_total : ∀ a b : BookInstance, (dueBackLE a b || dueBackLE b a) = true := by
  intro a b
  simp only [dueBackLE, Bool.or_eq_true, decide_eq_true_eq]
  omega

/-- A delivered page is the slice of the full ordered result at
positions between 10 * (n - 1) inclusive and 10 * n exclusive. -/
lemma pageOf_spec {α : Type} {l : List α} {n : Nat} {p : List α}
    (h : pageOf l n = some p) :
    p.length ≤ 10 ∧ ∀ i, i < 10 → p[i]? = l[10 * (n - 1) + i]? := by
  unfold pageOf at h
  split at h
  · have hp : p = (l.take (10 * (n - 1) + 10)).drop (10 * (n - 1)) := by
      injection h with h'
      exact h'.symm
    subst hp
    constructor
    · simp only [List.length_drop, List.length_take]
      omega
    · intro i hi
      rw [List.getElem?_drop, List.getElem?_take, if_pos (by omega)]
  · exact absurd h (by simp)

/-! ## The claims -/

/-- C1, amended: for every well-formed store, the summary page's
reported figures equal the true cardinalities of the underlying sets —
total Books, total BookInstances, BookInstances with status 'a',
total Authors, total Genres — while the "poem" figure counts one per
(Book, matching genre) pair: a Book whose genre names contain "poem"
case-insensitively in k of its genres contributes k, not 1 (the ORM
join is counted without distinct). -/
theorem index_counts (s : Store) (sess : Session) (h : s.wellFormed) :
    (index s sess).1.num_books = distinctCount (s.books.map Book.id) ∧
    (index s sess).1.num_instances = distinctCount (s.instances.map BookInstance.id) ∧
    (index s sess).1.num_instances_available
      = distinctCount ((s.instances.filter (fun bi => bi.status == 'a')).map
          BookInstance.id) ∧
    (index s sess).1.num_authors = distinctCount (s.authors.map Author.id) ∧
    (index s sess).1.num_genres = distinctCount (s.genres.map Genre.id) ∧
    (index s sess).1.books_containing_genre = poem_pair_count s := by
  obtain ⟨h1, h2, h3, h4⟩ := h
  have havail : ((s.instances.filter (fun bi => bi.status == 'a')).map
      BookInstance.id).Nodup :=
    List.Nodup.sublist (List.Sublist.map _ (List.filter_sublist _)) h4
  refine ⟨?_, ?_, ?_, ?_, ?_, ?_⟩ <;>
    simp [index, distinctCount_of_nodup, h1, h2, h3, h4, havail,
      books_containing_genre_eq_pairs]

/-- C1 counterexample: on a well-formed store holding one book related
to two genres whose names both contain "poem", the page reports 2 while
the number of such books, each counted at most once, is 1 — so the
reported figure is not the claim's cardinality. -/
theorem index_poem_count_not_per_book :
    poemStore.wellFormed ∧
    (index poemStore []).1.books_containing_genre = 2 ∧
    spec_books_with_poem_genre poemStore = 1 ∧
    (index poemStore []).1.books_containing_genre ≠ spec_books_with_poem_genre poemStore :=
  ⟨by decide, by decide, by decide, by decide⟩

/-- Witness for C1: the amended count equalities hold on a concrete
well-formed store. -/
theorem index_counts_witness :
    poemStore.wellFormed ∧
    ((index poemStore []).1.num_books = distinctCount (poemStore.books.map Book.id) ∧
     (index poemStore []).1.num_instances
       = distinctCount (poemStore.instances.map BookInstance.id) ∧
     (index poemStore []).1.num_instances_available
       = distinctCount ((poemStore.instances.filter (fun bi => bi.status == 'a')).map
           BookInstance.id) ∧
     (index poemStore []).1.num_authors = distinctCount (poemStore.authors.map Author.id) ∧
     (index poemStore []).1.num_genres = distinctCount (poemStore.genres.map Genre.id) ∧
     (index poemStore []).1.books_containing_genre = poem_pair_count poemStore) :=
  ⟨by decide, index_counts poemStore [] (by decide)⟩

/-- C2: the summary page reports the session visit counter's
pre-increment value and stores back exactly one more; starting from a
fresh session the (n + 1)-th request reports n — in particular the
first request reports 0. -/
theorem visit_counter (stores : Nat → Store) :
    (∀ (s : Store) (sess : Session),
        (index s sess).1.num_visits = sessionGet sess "num_visits" 0 ∧
        sessionGet (index s sess).2 "num_visits" 0 = (index s sess).1.num_visits + 1) ∧
    (∀ n : Nat, (index (stores n) (sessionAfter stores n)).1.num_visits = n) := by
  have hstep : ∀ (s : Store) (sess : Session),
      (index s sess).1.num_visits = sessionGet sess "num_visits" 0 ∧
      sessionGet (index s sess).2 "num_visits" 0 = (index s sess).1.num_visits + 1 := by
    intro s sess
    refine ⟨rfl, ?_⟩
    simp [index, sessionGet_sessionSet]
  refine ⟨hstep, ?_⟩
  intro n
  induction n with
  | zero => rfl
  | succ n ih =>
    have := (hstep (stores n) (sessionAfter stores n)).2
    calc (index (stores (n + 1)) (sessionAfter stores (n + 1))).1.num_visits
        = sessionGet (sessionAfter stores (n + 1)) "num_visits" 0 :=
          (hstep _ _).1
      _ = sessionGet (index (stores n) (sessionAfter stores n)).2 "num_visits" 0 := rfl
      _ = (index (stores n) (sessionAfter stores n)).1.num_visits + 1 := this
      _ = n + 1 := by rw [ih]

/-- C3: on a permitted POST to the renewal view resolving an existing
BookInstance, a date passing validation is written as the record's exact
due-back date and the response redirects to the all-loans view; a date
failing validation leaves the store untouched and re-renders the same
bound form with errors. -/
theorem renew_post_applies_validation
    (valid : Int → Bool) (today : Int) (u : User) (posted : Int) (pk : Nat)
    (store : List BookInstance) (tgt : BookInstance)
    (hperm : u.has_perm "catalog.can_mark_returned" = true)
    (hfind : store.find? (fun x => x.id == pk) = some tgt) :
    (valid posted = true →
      renew_book_librarian valid today u "POST" posted pk store
        = (.redirect "all-borrowed-books",
           saveInstance store { tgt with due_back := posted }) ∧
      (renew_book_librarian valid today u "POST" posted pk store).2.find?
          (fun x => x.id == pk) = some { tgt with due_back := posted }) ∧
    (valid posted = false →
      renew_book_librarian valid today u "POST" posted pk store
        = (.renderForm ⟨true, posted⟩ true tgt, store)) := by
  constructor
  · intro hv
    have heq : renew_book_librarian valid today u "POST" posted pk store
        = (.redirect "all-borrowed-books",
           saveInstance store { tgt with due_back := posted }) := by
      simp [renew_book_librarian, hperm, hfind, hv]
    refine ⟨heq, ?_⟩
    rw [heq]
    exact saveInstance_find? hfind _ rfl
  · intro hv
    simp [renew_book_librarian, hperm, hfind, hv]

/-- Witness for C3: both validation branches exercised on a concrete
store of one loaned copy. -/
theorem renew_post_applies_validation_witness :
    renewUser.has_perm "catalog.can_mark_returned" = true ∧
    [loanA].find? (fun x => x.id == 5) = some loanA ∧
    (((fun _ : Int => true) 150 = true →
       renew_book_librarian (fun _ => true) 10 renewUser "POST" 150 5 [loanA]
         = (.redirect "all-borrowed-books",
            saveInstance [loanA] { loanA with due_back := 150 }) ∧
       (renew_book_librarian (fun _ => true) 10 renewUser "POST" 150 5 [loanA]).2.find?
           (fun x => x.id == 5) = some { loanA with due_back := 150 }) ∧
     ((fun _ : Int => true) 150 = false →
       renew_book_librarian (fun _ => true) 10 renewUser "POST" 150 5 [loanA]
         = (.renderForm ⟨true, 150⟩ true loanA, [loanA]))) :=
  ⟨by decide, by decide,
   renew_post_applies_validation (fun _ => true) 10 renewUser 150 5 [loanA] loanA
     (by decide) (by decide)⟩

/-- C4: for an authenticated user the my-loans view returns its
queryset, whose members are exactly the stored BookInstances borrowed by
that user with status 'o', arranged non-decreasingly by due-back date. -/
theorem my_loans_exact_and_sorted (u : User) (s : Store)
    (hauth : u.authenticated = true) :
    loanedBooksView u s = .ok (loanedBooksQueryset u s) ∧
    (∀ bi : BookInstance, bi ∈ loanedBooksQueryset u s ↔
       bi ∈ s.instances ∧ bi.borrower = some u.id ∧ bi.status = 'o') ∧
    (loanedBooksQueryset u s).Sorted (fun a b => a.due_back ≤ b.due_back) := by
  refine ⟨by simp [loanedBooksView, hauth], ?_, ?_⟩
  · intro bi
    unfold loanedBooksQueryset
    rw [List.mem_mergeSort]
    simp only [List.mem_filter, beq_iff_eq, and_assoc]
  · unfold loanedBooksQueryset
    have hp := List.sorted_mergeSort dueBackLE_trans dueBackLE_total
      ((s.instances.filter (fun bi => bi.borrower == some u.id)).filter
        (fun bi => bi.status == 'o'))
    exact hp.imp (by intro a b h; simpa [dueBackLE] using h)

/-- Witness for C4: the my-loans property at a concrete user and store. -/
theorem my_loans_witness :
    (⟨7, true, []⟩ : User).authenticated = true ∧
    (loanedBooksView ⟨7, true, []⟩ loanStore
       = .ok (loanedBooksQueryset ⟨7, true, []⟩ loanStore) ∧
     (∀ bi : BookInstance, bi ∈ loanedBooksQueryset ⟨7, true, []⟩ loanStore ↔
        bi ∈ loanStore.instances ∧ bi.borrower = some 7 ∧ bi.status = 'o') ∧
     (loanedBooksQueryset ⟨7, true, []⟩ loanStore).Sorted
       (fun a b => a.due_back ≤ b.due_back)) :=
  ⟨rfl, my_loans_exact_and_sorted ⟨7, true, []⟩ loanStore rfl⟩

/-- C5, amended: unauthenticated access to my-loans is rejected by a
redirect to the login page; authenticated access without the mark-
returned permission to all-loans is rejected with 403; access without
that permission to the renewal view is rejected by a redirect to the
login page (the permission_required decorator's default), not with 403;
each rejection is produced before any loan query runs — the response is
identical on every store and the store is left untouched. -/
theorem access_guards (u : User) (s s' : Store) (valid : Int → Bool)
    (today posted : Int) (pk : Nat) (method : String) :
    (u.authenticated = false →
       loanedBooksView u s = .redirectToLogin ∧
       loanedBooksView u s = loanedBooksView u s') ∧
    (u.authenticated = true → u.perms.contains "catalog.can_mark_returned" = false →
       allBorrowedView u s = .forbidden ∧
       allBorrowedView u s = allBorrowedView u s') ∧
    (u.has_perm "catalog.can_mark_returned" = false →
       renew_book_librarian valid today u method posted pk s.instances
         = (.redirectToLogin, s.instances)) := by
  refine ⟨?_, ?_, ?_⟩
  · intro h
    simp [loanedBooksView, h]
  · intro h1 h2
    have hni : "catalog.can_mark_returned" ∉ u.perms := by simpa using h2
    simp [allBorrowedView, User.has_perm, h1, h2, hni]
  · intro h
    simp [renew_book_librarian, h]

/-- C5 counterexample: an authenticated user without the permission who
requests the renewal view is answered with a redirect to the login page,
not with 403 as the claim states. -/
theorem renew_no_perm_not_forbidden :
    (renew_book_librarian (fun _ => true) 0 ⟨2, true, []⟩ "GET" 0 1 []).1
      = RenewResult.redirectToLogin ∧
    RenewResult.redirectToLogin ≠ RenewResult.forbidden :=
  ⟨by decide, by decide⟩

/-- Witness for C5: all three rejection modes at concrete users and
stores. -/
theorem access_guards_witness :
    ((⟨1, false, []⟩ : User).authenticated = false ∧
     loanedBooksView ⟨1, false, []⟩ loanStore = .redirectToLogin ∧
     loanedBooksView ⟨1, false, []⟩ loanStore = loanedBooksView ⟨1, false, []⟩ emptyStore) ∧
    ((⟨2, true, []⟩ : User).authenticated = true ∧
     (⟨2, true, []⟩ : User).perms.contains "catalog.can_mark_returned" = false ∧
     allBorrowedView ⟨2, true, []⟩ loanStore = .forbidden ∧
     allBorrowedView ⟨2, true, []⟩ loanStore = allBorrowedView ⟨2, true, []⟩ emptyStore) ∧
    (User.has_perm ⟨2, true, []⟩ "catalog.can_mark_returned" = false ∧
     renew_book_librarian (fun _ => true) 0 ⟨2, true, []⟩ "GET" 0 1 loanStore.instances
       = (.redirectToLogin, loanStore.instances)) :=
  ⟨⟨rfl,
    (access_guards ⟨1, false, []⟩ loanStore emptyStore (fun _ => true) 0 0 1 "GET").1 rfl⟩,
   ⟨rfl, by decide,
    (access_guards ⟨2, true, []⟩ loanStore emptyStore (fun _ => true) 0 0 1 "GET").2.1
      rfl (by decide)⟩,
   ⟨by decide,
    (access_guards ⟨2, true, []⟩ loanStore emptyStore (fun _ => true) 0 0 1 "GET").2.2
      (by decide)⟩⟩

/-- C6, amended: the Book update view accepts exactly summary, genre and
language — applying its form never changes a book's title or author —
while the Book create view accepts the full Book field set, title and
author included. -/
theorem book_form_field_sets :
    (∀ (d : BookFormData) (b : Book),
       (applyBookForm bookUpdateFields d b).title = b.title ∧
       (applyBookForm bookUpdateFields d b).author = b.author) ∧
    bookUpdateFields = ["summary", "genre", "language"] ∧
    bookCreateFields = bookAllFields ∧
    bookCreateFields.contains "title" = true ∧
    bookCreateFields.contains "author" = true := by
  refine ⟨?_, rfl, rfl, by decide, by decide⟩
  intro d b
  constructor <;> simp [applyBookForm, bookUpdateFields]

/-- C6 counterexample: through the create view's form a book's title is
set to a submitted value, refuting that the title cannot be set through
either view. -/
theorem book_create_can_set_title :
    (applyBookForm bookCreateFields ⟨some "New", none, none, none, none⟩
       ⟨1, "Old", "s", "en", 1, []⟩).title = "New" ∧
    (⟨1, "Old", "s", "en", 1, []⟩ : Book).title = "Old" ∧
    ("New" : String) ≠ "Old" :=
  ⟨by decide, by decide, by decide⟩

/-- C7: for each of the four list views, a delivered page n holds at
most 10 records, and its record at offset i is the full ordered result's
record at position 10 * (n - 1) + i — the slice from 10 * (n - 1)
inclusive to 10 * n exclusive. -/
theorem list_views_paginate_by_ten :
    (∀ (s : Store) (n : Nat) (p : List Book), bookListPage s n = some p →
       p.length ≤ 10 ∧ ∀ i, i < 10 → p[i]? = (bookListQueryset s)[10 * (n - 1) + i]?) ∧
    (∀ (s : Store) (n : Nat) (p : List Author), authorListPage s n = some p →
       p.length ≤ 10 ∧ ∀ i, i < 10 → p[i]? = (authorListQueryset s)[10 * (n - 1) + i]?) ∧
    (∀ (u : User) (s : Store) (n : Nat) (p : List BookInstance),
       loanedBooksPage u s n = some p →
       p.length ≤ 10 ∧ ∀ i, i < 10 → p[i]? = (loanedBooksQueryset u s)[10 * (n - 1) + i]?) ∧
    (∀ (s : Store) (n : Nat) (p : List BookInstance), allBorrowedPage s n = some p →
       p.length ≤ 10 ∧ ∀ i, i < 10 → p[i]? = (allBorrowedQueryset s)[10 * (n - 1) + i]?) :=
  ⟨fun _ _ _ h => pageOf_spec h, fun _ _ _ h => pageOf_spec h,
   fun _ _ _ _ h => pageOf_spec h, fun _ _ _ h => pageOf_spec h⟩

/-- Witness for C7: page 1 of the book list on a two-book store. -/
theorem list_views_paginate_witness :
    bookListPage pageStore 1 = some pageStore.books ∧
    (pageStore.books.length ≤ 10 ∧
     ∀ i, i < 10 → pageStore.books[i]? = (bookListQueryset pageStore)[10 * (1 - 1) + i]?) :=
  ⟨by decide, list_views_paginate_by_ten.1 pageStore 1 pageStore.books (by decide)⟩

/-- C8: a successful renewal only rewrites the target record's due-back
date: the store keeps its size, every record with another primary key is
kept verbatim in both directions, and the store holds a record with the
target's key whose book, status and borrower are the target's old values
and whose due-back date is the submitted one. -/
theorem renew_success_frame
    (valid : Int → Bool) (today : Int) (u : User) (posted : Int) (pk : Nat)
    (store : List BookInstance) (tgt : BookInstance)
    (hperm : u.has_perm "catalog.can_mark_returned" = true)
    (hfind : store.find? (fun x => x.id == pk) = some tgt)
    (hv : valid posted = true) :
    (renew_book_librarian valid today u "POST" posted pk store).2.length = store.length ∧
    (∀ x ∈ store, x.id ≠ pk →
       x ∈ (renew_book_librarian valid today u "POST" posted pk store).2) ∧
    (∀ x ∈ (renew_book_librarian valid today u "POST" posted pk store).2,
       x.id ≠ pk → x ∈ store) ∧
    (∃ x ∈ (renew_book_librarian valid today u "POST" posted pk store).2,
       x.id = pk ∧ x.book = tgt.book ∧ x.status = tgt.status ∧
       x.borrower = tgt.borrower ∧ x.due_back = posted) := by
  have htgt : tgt.id = pk := find?_id_eq hfind
  have hmem : tgt ∈ store := List.mem_of_find?_eq_some hfind
  have heq : (renew_book_librarian valid today u "POST" posted pk store).2
      = saveInstance store { tgt with due_back := posted } := by
    simp [renew_book_librarian, hperm, hfind, hv]
  rw [heq]
  refine ⟨saveInstance_length store _, ?_, ?_, ?_⟩
  · intro x hx hne
    exact saveInstance_mem_of_ne hx (by simpa [htgt] using hne)
  · intro x hx hne
    exact mem_of_saveInstance_ne hx (by simpa [htgt] using hne)
  · exact ⟨{ tgt with due_back := posted },
      saveInstance_mem_self hmem _ rfl, htgt, rfl, rfl, rfl, rfl⟩

/-- Witness for C8: the frame conditions at a concrete two-record store. -/
theorem renew_success_frame_witness :
    renewUser.has_perm "catalog.can_mark_returned" = true ∧
    [loanA, loanB].find? (fun x => x.id == 5) = some loanA ∧
    (fun _ : Int => true) 150 = true ∧
    ((renew_book_librarian (fun _ => true) 10 renewUser "POST" 150 5 [loanA, loanB]).2.length
        = [loanA, loanB].length ∧
     (∀ x ∈ [loanA, loanB], x.id ≠ 5 →
        x ∈ (renew_book_librarian (fun _ => true) 10 renewUser "POST" 150 5
              [loanA, loanB]).2) ∧
     (∀ x ∈ (renew_book_librarian (fun _ => true) 10 renewUser "POST" 150 5
              [loanA, loanB]).2,
        x.id ≠ 5 → x ∈ [loanA, loanB]) ∧
     (∃ x ∈ (renew_book_librarian (fun _ => true) 10 renewUser "POST" 150 5
              [loanA, loanB]).2,
        x.id = 5 ∧ x.book = loanA.book ∧ x.status = loanA.status ∧
        x.borrower = loanA.borrower ∧ x.due_back = 150)) :=
  ⟨by decide, by decide, rfl,
   renew_success_frame (fun _ => true) 10 renewUser 150 5 [loanA, loanB] loanA
     (by decide) (by decide) rfl⟩

/-- C9: a permitted GET to the renewal view for an existing BookInstance
renders the unbound form whose date field holds today + 21 days (three
weeks), alongside the target record, and leaves the store untouched. -/
theorem renew_get_prepopulates
    (valid : Int → Bool) (today : Int) (u : User) (posted : Int) (pk : Nat)
    (store : List BookInstance) (tgt : BookInstance)
    (hperm : u.has_perm "catalog.can_mark_returned" = true)
    (hfind : store.find? (fun x => x.id == pk) = some tgt) :
    renew_book_librarian valid today u "GET" posted pk store
      = (.renderForm ⟨false, today + 21⟩ false tgt, store) := by
  simp [renew_book_librarian, hperm, hfind]

/-- Witness for C9: the GET rendering at a concrete store and day 10. -/
theorem renew_get_prepopulates_witness :
    renewUser.has_perm "catalog.can_mark_returned" = true ∧
    [loanA].find? (fun x => x.id == 5) = some loanA ∧
    renew_book_librarian (fun _ => true) 10 renewUser "GET" 0 5 [loanA]
      = (.renderForm ⟨false, 10 + 21⟩ false loanA, [loanA]) :=
  ⟨by decide, by decide,
   renew_get_prepopulates (fun _ => true) 10 renewUser 0 5 [loanA] loanA
     (by decide) (by decide)⟩

/-- C10: a request to the renewal view with any method other than POST
is handled exactly as a GET — same response, and the store is never
modified; the handler rejects no method of its own. -/
theorem renew_other_method_as_get
    (valid : Int → Bool) (today : Int) (u : User) (method : String) (posted : Int)
    (pk : Nat) (store : List BookInstance) (hm : method ≠ "POST") :
    renew_book_librarian valid today u method posted pk store
      = renew_book_librarian valid today u "GET" posted pk store ∧
    (renew_book_librarian valid today u method posted pk store).2 = store := by
  have hmb : (method == "POST") = false := by simpa using hm
  have hg : (("GET" : String) == "POST") = false := by decide
  constructor
  · unfold renew_book_librarian
    rw [hmb, hg]
  · unfold renew_book_librarian
    rw [hmb]
    by_cases hp : u.has_perm "catalog.can_mark_returned" = true
    · rw [if_pos hp]
      cases store.find? (fun x => x.id == pk) with
      | none => rfl
      | some b => rfl
    · rw [if_neg hp]

/-- Witness for C10: a PUT request behaves as a GET on a concrete store. -/
theorem renew_other_method_witness :
    ("PUT" : String) ≠ "POST" ∧
    (renew_book_librarian (fun _ => true) 10 renewUser "PUT" 0 5 [loanA]
       = renew_book_librarian (fun _ => true) 10 renewUser "GET" 0 5 [loanA] ∧
     (renew_book_librarian (fun _ => true) 10 renewUser "PUT" 0 5 [loanA]).2 = [loanA]) :=
  ⟨by decide,
   renew_other_method_as_get (fun _ => true) 10 renewUser "PUT" 0 5 [loanA] (by decide)⟩

end LocalLibrary
